import Mathlib

/-!
Verification development for the satellite observation-planning web app
(`tab1_usecase.py`, `tab2_plan.py`, `app.py`).

The Python code is shallowly embedded as follows.

* Python/JSON values are modelled by the inductive type `PyVal`
  (`None`, `bool`, numbers as `ℚ`, `str`, `list`, `dict`).
* Strings are processed as `List Char`; Python floats are modelled as `ℚ`
  (all numbers appearing in the code and in the claims are exact decimals).
* The Streamlit session state is the record `SessionState` with one
  `Option PyVal` field per session key that the code touches; a key set to
  Python `None` and an absent key are both `Option.none` (the code reads
  keys only through `st.session_state.get`, which conflates the two).
* Each button handler becomes a state-transition function; the external
  completion service is a parameter of type `Except Unit String`
  (`.error` = transport error raised by the call, `.ok text` = the reply
  text with `content or ""` already applied).  An `ActionResult` records
  the resulting state, whether an exception escaped the handler
  (`raised`), whether `st.error` was shown (`errorShown`), and the raw
  completion text exposed in a debug expander, if any (`debugRaw`).
* `json.loads` (Python's strict JSON parser, an external library) is
  modelled by `json_loads`, a strict recursive-descent JSON parser.
-/

/-- Python values / parsed JSON values.  `num` carries an exact rational:
Python ints and floats are merged (Python's `==`, `isinstance(x,(int,float))`
and arithmetic treat them uniformly for the decimal values that occur here). -/
inductive PyVal where
  | none
  | bool (b : Bool)
  | num (q : ℚ)
  | str (s : String)
  | list (xs : List PyVal)
  | dict (kvs : List (String × PyVal))

/-- Python truthiness: `None`, `False`, `0`, `""`, `[]`, `{}` are falsy. -/
def PyVal.truthy : PyVal → Bool
  | .none => false
  | .bool b => b
  | .num q => decide (q ≠ 0)
  | .str s => !s.isEmpty
  | .list xs => !xs.isEmpty
  | .dict kvs => !kvs.isEmpty

/-- `a or b` in Python: `a` if truthy, else `b`. -/
def pyOr (a b : PyVal) : PyVal := if a.truthy then a else b

/-- Last binding of key `k` in an association list, if any.  Python dicts
with duplicate keys (possible from the JSON parser) keep the last value. -/
def lookupLast (kvs : List (String × PyVal)) (k : String) : Option PyVal :=
  kvs.foldl (fun acc p => if p.1 = k then some p.2 else acc) Option.none

/-- `d.get(k)` on a Python dict: the stored value, or `None` when missing.
On a non-dict value Python raises `AttributeError`, modelled by `.error ()`. -/
def PyVal.getE (v : PyVal) (k : String) : Except Unit PyVal :=
  match v with
  | .dict kvs => .ok ((lookupLast kvs k).getD .none)
  | _ => .error ()

/-- `d.get(k, default)` on a Python dict (default returned only when the key
is missing; a stored `None` is returned as `None`). -/
def PyVal.getDE (v : PyVal) (k : String) (d : PyVal) : Except Unit PyVal :=
  match v with
  | .dict kvs => .ok ((lookupLast kvs k).getD d)
  | _ => .error ()

/-- `isinstance(x, (int, float))` in Python; note that `bool` is a subclass
of `int`, so `True`/`False` pass this check. -/
def PyVal.isNumLike : PyVal → Bool
  | .num _ => true
  | .bool _ => true
  | _ => false

/-- `float(x if isinstance(x, (int, float)) else d)`:
numbers pass through, booleans become 1/0, anything else gives the default. -/
def pyFloatOr (v : PyVal) (d : ℚ) : ℚ :=
  match v with
  | .num q => q
  | .bool b => if b then 1 else 0
  | _ => d

/-- ASCII lowering of one character, as Python `str.lower` acts on the
ASCII letters appearing in the band data (other characters are unchanged). -/
def lowerChar (c : Char) : Char := c.toLower

/-- Lowercase a character list. -/
def lowerList (cs : List Char) : List Char := cs.map lowerChar

/-- Whitespace for Python's `str.strip` and the regex class `\s`
(ASCII: space, tab, newline, carriage return, vertical tab, form feed). -/
def isPySpace (c : Char) : Bool :=
  c = ' ' || c = '\t' || c = '\n' || c = '\r' || c = Char.ofNat 11 || c = Char.ofNat 12

/-- `s.strip()`. -/
def pyStrip (cs : List Char) : List Char :=
  ((cs.dropWhile isPySpace).reverse.dropWhile isPySpace).reverse

/-- `s.replace(pat, repl)` for a one-character pattern (all the `replace`
calls in the source use one-character patterns); `repl = none` deletes. -/
def replaceChar (c : Char) (r : Option Char) (cs : List Char) : List Char :=
  cs.foldr (fun x acc => if x = c then (match r with | some y => y :: acc | Option.none => acc) else x :: acc) []

/-- Does `pat` occur at the front of `cs`?  (Literal match, like Python's
`str.startswith` / a literal regex prefix.) -/
def matchesFront : List Char → List Char → Bool
  | [], _ => true
  | _ :: _, [] => false
  | p :: ps, c :: cs => p = c && matchesFront ps cs

/-- Does `pat` occur anywhere in `cs` as a contiguous run?  (Python `in`.) -/
def containsPat (pat : List Char) : List Char → Bool
  | [] => matchesFront pat []
  | c :: rest => matchesFront pat (c :: rest) || containsPat pat rest

/-- Value of a digit string (most significant first). -/
def digitsToNat (ds : List Char) : Nat :=
  ds.foldl (fun acc c => acc * 10 + (c.toNat - 48)) 0

/-- Exact rational value of a decimal token of the shape `\d+\.?\d*`
(what Python's `float` returns on such a token). -/
def parseDecimal (tok : List Char) : ℚ :=
  let intPart := tok.takeWhile Char.isDigit
  let rest := tok.drop intPart.length
  let fracPart := match rest with
    | '.' :: ds => ds.takeWhile Char.isDigit
    | _ => []
  mkRat (digitsToNat intPart * 10 ^ fracPart.length + digitsToNat fracPart) (10 ^ fracPart.length)

/-- One maximal match of the regex `\d+\.?\d*` starting at a digit:
greedy digits, then an optional dot, then greedy digits.
Returns the token and the remaining input. -/
def scanNumToken (cs : List Char) : List Char × List Char :=
  let intPart := cs.takeWhile Char.isDigit
  let rest := cs.drop intPart.length
  match rest with
  | '.' :: ds =>
    let fracPart := ds.takeWhile Char.isDigit
    (intPart ++ '.' :: fracPart, ds.drop fracPart.length)
  | _ => (intPart, rest)

/-- `re.findall(r"\d+\.?\d*", s)`: left-to-right non-overlapping greedy
matches.  Fuel-driven recursion (the fuel is the input length). -/
def findNumTokens : Nat → List Char → List (List Char)
  | 0, _ => []
  | _ + 1, [] => []
  | fuel + 1, c :: rest =>
    if c.isDigit then
      let p := scanNumToken (c :: rest)
      p.1 :: findNumTokens fuel p.2
    else
      findNumTokens fuel rest

/-- `_parse_min_res` (tab1_usecase.py lines 56-60):
`s = (s or "").replace("–", "/").replace("約", "")`, then
`nums = re.findall(r"\d+\.?\d*", s)`; first number, else the 9999 sentinel.
The argument is `Option String`: the call sites pass `sat.get(...)`,
which may be `None`; `(s or "")` maps both `None` and `""` to `""`. -/
def parse_min_res (s : Option String) : ℚ :=
  let cs := (s.getD "").data
  let cs := replaceChar '–' (some '/') cs
  let cs := replaceChar '約' Option.none cs
  let nums := findNumTokens (cs.length + 1) cs
  match nums with
  | [] => 9999
  | t :: _ => parseDecimal t

/-- Separator class of the regex `[/\-–\s]+` used by `_parse_revisit_days`. -/
def isSepChar (c : Char) : Bool :=
  c = '/' || c = '-' || c = '–' || isPySpace c

/-- `re.split(r"[/\-–\s]+", s)`: tokens between maximal separator runs;
a leading or trailing separator run yields an empty boundary token,
exactly as `re.split` produces.  Fuel-driven recursion. -/
def splitSeps : Nat → List Char → List Char → List (List Char) → List (List Char)
  | 0, _, cur, acc => acc ++ [cur]
  | _ + 1, [], cur, acc => acc ++ [cur]
  | fuel + 1, c :: rest, cur, acc =>
    if isSepChar c then
      splitSeps fuel (rest.dropWhile isSepChar) [] (acc ++ [cur])
    else
      splitSeps fuel rest (cur ++ [c]) acc

/-- `re.match(r"^\d+\.?\d*$", p)`: one or more digits, an optional dot,
zero or more digits, consuming the whole token. -/
def isNumToken (t : List Char) : Bool :=
  let ds := t.takeWhile Char.isDigit
  !ds.isEmpty &&
    (match t.drop ds.length with
     | [] => true
     | '.' :: ds2 => ds2.all Char.isDigit
     | _ => false)

/-- The numeric values kept by `_parse_revisit_days` for input `s`:
strip `日` and `<`, `strip()`, split on `[/\-–\s]+`, keep decimal tokens. -/
def revisitNums (s : String) : List ℚ :=
  let cs := replaceChar '日' Option.none s.data
  let cs := replaceChar '<' Option.none cs
  let cs := pyStrip cs
  let parts := splitSeps (cs.length + 1) cs [] []
  (parts.filter isNumToken).map parseDecimal

/-- `_parse_revisit_days` (tab1_usecase.py lines 62-67): arithmetic mean of
the numeric tokens, or the 9999 sentinel when there are none.  `sum`/`len`
in Python is the left fold from 0 divided by the list length. -/
def parse_revisit_days (s : Option String) : ℚ :=
  let nums := revisitNums (s.getD "")
  if nums.isEmpty then 9999
  else (nums.foldl (· + ·) 0) / (nums.length : ℚ)

/-- A catalog record (`satellites_db.SATELLITES` entries; external read-only
data).  Only the fields read by the code are modelled.  `mission_name` and
`instrument_name` are accessed with `r["..."]` (always present in the
catalog); the other three are accessed with `.get`, so they are `Option`. -/
structure SatRecord where
  mission_name : String
  instrument_name : String
  spectral_band : Option String
  spatial_resolution_m : Option String
  revisit : Option String
deriving DecidableEq, Repr

/-- Band filter of `_search_satellites`:
`all(b.lower() in band_text for b in (bands or [])) if bands else True`,
where `band_text = (sat.get("spectral_band", "") or "").lower()`. -/
def band_ok (bands : List String) (sat : SatRecord) : Bool :=
  if bands.isEmpty then true
  else
    let band_text := lowerList (sat.spectral_band.getD "").data
    bands.all fun b => containsPat (lowerList b.data) band_text

/-- The full filter of `_search_satellites` (tab1_usecase.py lines 72-81):
band match, parsed resolution within 1.5× target, parsed revisit within
1.5× target (`1.5` is the exact rational `3/2`). -/
def passes_filter (bands : List String) (res_target revisit_target : ℚ) (sat : SatRecord) : Bool :=
  band_ok bands sat
    && decide (parse_min_res sat.spatial_resolution_m ≤ res_target * (3/2))
    && decide (parse_revisit_days sat.revisit ≤ revisit_target * (3/2))

/-- Ranking score of `_search_satellites` (lines 83-86): unweighted L1
distance to the targets. -/
def score (res_target revisit_target : ℚ) (sat : SatRecord) : ℚ :=
  |parse_min_res sat.spatial_resolution_m - res_target|
    + |parse_revisit_days sat.revisit - revisit_target|

/-- Insert `a` after every element whose key is ≤ its key (stable insert). -/
def keyInsert (k : SatRecord → ℚ) (a : SatRecord) : List SatRecord → List SatRecord
  | [] => [a]
  | b :: bs => if k b ≤ k a then b :: keyInsert k a bs else a :: b :: bs

/-- `recs.sort(key=score)`: Python's stable ascending sort by key, realised
as stable insertion of the elements in their original order. -/
def sortByKey (k : SatRecord → ℚ) (l : List SatRecord) : List SatRecord :=
  l.foldl (fun acc a => keyInsert k a acc) []

/-- `_search_satellites` (tab1_usecase.py lines 69-89): filter the catalog,
sort ascending by L1 distance to the targets, return the first 5. -/
def search_satellites (catalog : List SatRecord) (bands : List String)
    (res_target revisit_target : ℚ) : List SatRecord :=
  (sortByKey (score res_target revisit_target)
    (catalog.filter (passes_filter bands res_target revisit_target))).take 5

/-- The opening curly brace character. -/
def lbrace : Char := Char.ofNat 123

/-- The closing curly brace character. -/
def rbrace : Char := Char.ofNat 125

/-- JSON whitespace (RFC 8259): space, tab, line feed, carriage return. -/
def jsonWsChar (c : Char) : Bool :=
  c = ' ' || c = '\t' || c = '\n' || c = '\r'

/-- Skip JSON whitespace. -/
def skipWs (cs : List Char) : List Char := cs.dropWhile jsonWsChar

/-- Value of one hexadecimal digit, if any. -/
def hexVal (c : Char) : Option Nat :=
  if '0' ≤ c && c ≤ '9' then some (c.toNat - 48)
  else if 'a' ≤ c && c ≤ 'f' then some (c.toNat - 87)
  else if 'A' ≤ c && c ≤ 'F' then some (c.toNat - 55)
  else Option.none

/-- Body of a JSON string after the opening quote: returns the decoded
characters and the input after the closing quote.  Strict: unescaped
control characters and unknown escapes are rejected. -/
def parseJString : Nat → List Char → List Char → Option (List Char × List Char)
  | 0, _, _ => Option.none
  | _ + 1, _, [] => Option.none
  | fuel + 1, acc, c :: rest =>
    if c = '"' then some (acc, rest)
    else if c = '\\' then
      match rest with
      | '"' :: r => parseJString fuel (acc ++ ['"']) r
      | '\\' :: r => parseJString fuel (acc ++ ['\\']) r
      | '/' :: r => parseJString fuel (acc ++ ['/']) r
      | 'b' :: r => parseJString fuel (acc ++ [Char.ofNat 8]) r
      | 'f' :: r => parseJString fuel (acc ++ [Char.ofNat 12]) r
      | 'n' :: r => parseJString fuel (acc ++ ['\n']) r
      | 'r' :: r => parseJString fuel (acc ++ ['\r']) r
      | 't' :: r => parseJString fuel (acc ++ ['\t']) r
      | 'u' :: h1 :: h2 :: h3 :: h4 :: r =>
        match hexVal h1, hexVal h2, hexVal h3, hexVal h4 with
        | some a, some b, some c₃, some d =>
          parseJString fuel (acc ++ [Char.ofNat (((a * 16 + b) * 16 + c₃) * 16 + d)]) r
        | _, _, _, _ => Option.none
      | _ => Option.none
    else if c.toNat < 32 then Option.none
    else parseJString fuel (acc ++ [c]) rest

/-- Exact rational value of a JSON number from its parts:
sign, integer digits, fraction digits, exponent sign, exponent. -/
def jsonNumVal (neg : Bool) (intDs fds : List Char) (eneg : Bool) (e : Nat) : ℚ :=
  let mant : Int := (digitsToNat intDs * 10 ^ fds.length + digitsToNat fds : Nat)
  let mant : Int := if neg then -mant else mant
  if eneg then mkRat mant (10 ^ fds.length * 10 ^ e)
  else mkRat (mant * 10 ^ e) (10 ^ fds.length)

/-- Optional exponent part of a JSON number, given the parts parsed so far. -/
def parseJExp (neg : Bool) (intDs fds : List Char) (cs : List Char) : Option (ℚ × List Char) :=
  match cs with
  | 'e' :: r | 'E' :: r =>
    let p : Bool × List Char :=
      match r with
      | '+' :: rr => (false, rr)
      | '-' :: rr => (true, rr)
      | _ => (false, r)
    let eds := p.2.takeWhile Char.isDigit
    if eds.isEmpty then Option.none
    else some (jsonNumVal neg intDs fds p.1 (digitsToNat eds), p.2.drop eds.length)
  | _ => some (jsonNumVal neg intDs fds false 0, cs)

/-- A JSON number per the RFC 8259 grammar (no leading zeros, fraction and
exponent need at least one digit), as Python's strict `json.loads` accepts. -/
def parseJNumber (cs : List Char) : Option (ℚ × List Char) :=
  let q : Bool × List Char :=
    match cs with
    | '-' :: r => (true, r)
    | _ => (false, cs)
  match q.2 with
  | [] => Option.none
  | d :: _ =>
    if !d.isDigit then Option.none
    else
      let intDs := if d = '0' then ['0'] else q.2.takeWhile Char.isDigit
      let r2 := q.2.drop intDs.length
      match r2 with
      | '.' :: r3 =>
        let fds := r3.takeWhile Char.isDigit
        if fds.isEmpty then Option.none
        else parseJExp q.1 intDs fds (r3.drop fds.length)
      | _ => parseJExp q.1 intDs [] r2

mutual

/-- One JSON value (after skipping whitespace) and the remaining input.
Fuel-driven: each recursion level consumes at least one character, so a
fuel of the input length plus one suffices. -/
def parseJValue : Nat → List Char → Option (PyVal × List Char)
  | 0, _ => Option.none
  | fuel + 1, cs =>
    let cs := skipWs cs
    match cs with
    | [] => Option.none
    | c :: rest =>
      if c = lbrace then parseJMembers fuel rest true []
      else if c = '[' then parseJItems fuel rest true []
      else if c = '"' then
        (parseJString (rest.length + 1) [] rest).map fun p => (.str (String.mk p.1), p.2)
      else if matchesFront "true".data cs then some (.bool true, cs.drop 4)
      else if matchesFront "false".data cs then some (.bool false, cs.drop 5)
      else if matchesFront "null".data cs then some (.none, cs.drop 4)
      else (parseJNumber cs).map fun p => (.num p.1, p.2)

/-- Members of a JSON object after the opening brace (`first = true`) or
after a comma (`first = false`); trailing commas are rejected. -/
def parseJMembers : Nat → List Char → Bool → List (String × PyVal) → Option (PyVal × List Char)
  | 0, _, _, _ => Option.none
  | fuel + 1, cs, first, acc =>
    let cs1 := skipWs cs
    match cs1 with
    | [] => Option.none
    | c :: rest =>
      if first && c = rbrace then some (.dict acc, rest)
      else if c = '"' then
        match parseJString (rest.length + 1) [] rest with
        | Option.none => Option.none
        | some (key, r1) =>
          match skipWs r1 with
          | ':' :: r2 =>
            match parseJValue fuel r2 with
            | Option.none => Option.none
            | some (v, r3) =>
              let acc := acc ++ [(String.mk key, v)]
              match skipWs r3 with
              | ',' :: r4 => parseJMembers fuel r4 false acc
              | c2 :: r4 =>
                if c2 = rbrace then some (.dict acc, r4) else Option.none
              | [] => Option.none
          | _ => Option.none
      else Option.none

/-- Items of a JSON array after the opening bracket (`first = true`) or
after a comma (`first = false`); trailing commas are rejected. -/
def parseJItems : Nat → List Char → Bool → List PyVal → Option (PyVal × List Char)
  | 0, _, _, _ => Option.none
  | fuel + 1, cs, first, acc =>
    let cs1 := skipWs cs
    match cs1 with
    | [] => Option.none
    | c :: rest =>
      if first && c = ']' then some (.list acc, rest)
      else
        match parseJValue fuel cs1 with
        | Option.none => Option.none
        | some (v, r1) =>
          let acc := acc ++ [v]
          match skipWs r1 with
          | ',' :: r2 => parseJItems fuel r2 false acc
          | ']' :: r2 => some (.list acc, r2)
          | _ => Option.none

end

/-- `json.loads(s)` (Python's strict JSON parser, an external library,
modelled here by the RFC 8259 grammar): the parsed value, or `Option.none`
when parsing fails (Python raises `json.JSONDecodeError`). -/
def json_loads (s : String) : Option PyVal :=
  match parseJValue (s.length + 1) s.data with
  | some (v, rest) => if (skipWs rest).isEmpty then some v else Option.none
  | Option.none => Option.none

/-- Trailing part `\s*` followed by a literal triple backtick: true iff some
whitespace run at the front of `cs` is followed by three backticks
(the backtracking regex engine accepts any such run). -/
def closeFence : List Char → Bool
  | [] => false
  | c :: rest => matchesFront "```".data (c :: rest) || (isPySpace c && closeFence rest)

/-- The lazy group `(.+?)` of tab1's fenced-block regex followed by
`\s*` + three backticks: the shortest non-empty prefix of the input after
which `closeFence` holds (with `re.DOTALL`, `.` matches any character). -/
def lazyContent1 (acc : List Char) : List Char → Option (List Char)
  | [] => Option.none
  | x :: rs => if closeFence rs then some (acc ++ [x]) else lazyContent1 (acc ++ [x]) rs

/-- Greedy `\s*` before the group in tab1's regex, with backtracking: try
dropping `w` whitespace characters, from longest to shortest. -/
def matchBodyAux1 (r : List Char) : Nat → Option (List Char)
  | 0 => lazyContent1 [] r
  | w + 1 =>
    match lazyContent1 [] (r.drop (w + 1)) with
    | some g => some g
    | Option.none => matchBodyAux1 r w

/-- Match `\s*(.+?)\s*` + three backticks against a prefix of `r`,
returning the captured group. -/
def matchBody1 (r : List Char) : Option (List Char) :=
  matchBodyAux1 r (r.takeWhile isPySpace).length

/-- Try tab1's regex at exactly this position: three literal backticks,
greedy-optional `json`, body. -/
def tryFrom1 (cs : List Char) : Option (List Char) :=
  if matchesFront "```".data cs then
    let r1 := cs.drop 3
    if matchesFront "json".data r1 then
      match matchBody1 (r1.drop 4) with
      | some g => some g
      | Option.none => matchBody1 r1
    else matchBody1 r1
  else Option.none

/-- `re.search` for tab1's pattern: leftmost position wins. -/
def fencedSearch1 : List Char → Option (List Char)
  | [] => Option.none
  | c :: rest =>
    match tryFrom1 (c :: rest) with
    | some g => some g
    | Option.none => fencedSearch1 rest

/-- `_extract_json_block` of tab1_usecase.py (lines 47-50):
`re.search(r"```(?:json)?\s*(.+?)\s*```", text, re.DOTALL)`, returning the
trimmed group when found, else the whole text trimmed (its documented
fallback `無ければ全文` - "if absent, the full text"). -/
def extract_json_block1 (text : String) : String :=
  match fencedSearch1 text.data with
  | some g => String.mk (pyStrip g)
  | Option.none => String.mk (pyStrip text.data)

/-- The lazy group `(\{.*?\})` of tab2's fenced regex followed by
`\s*` + three backticks: grow the content until a closing brace position
whose continuation satisfies `closeFence`. -/
def lazyBrace (acc : List Char) : List Char → Option (List Char)
  | [] => Option.none
  | x :: rs =>
    if x = rbrace && closeFence rs then some (lbrace :: (acc ++ [rbrace]))
    else lazyBrace (acc ++ [x]) rs

/-- Greedy `\s*` before the braced group in tab2's regex, with
backtracking over the whitespace width; the group must start with `{`. -/
def matchBodyAux2 (r : List Char) : Nat → Option (List Char)
  | 0 =>
    (match r with
     | c :: rest => if c = lbrace then lazyBrace [] rest else Option.none
     | [] => Option.none)
  | w + 1 =>
    (match r.drop (w + 1) with
     | c :: rest =>
       match (if c = lbrace then lazyBrace [] rest else Option.none) with
       | some g => some g
       | Option.none => matchBodyAux2 r w
     | [] => matchBodyAux2 r w)

/-- Match `\s*(\{.*?\})\s*` + three backticks against a prefix of `r`. -/
def matchBody2 (r : List Char) : Option (List Char) :=
  matchBodyAux2 r (r.takeWhile isPySpace).length

/-- Try tab2's regex at exactly this position. -/
def tryFrom2 (cs : List Char) : Option (List Char) :=
  if matchesFront "```".data cs then
    let r1 := cs.drop 3
    if matchesFront "json".data r1 then
      match matchBody2 (r1.drop 4) with
      | some g => some g
      | Option.none => matchBody2 r1
    else matchBody2 r1
  else Option.none

/-- `re.search` for tab2's pattern: leftmost position wins. -/
def fencedSearch2 : List Char → Option (List Char)
  | [] => Option.none
  | c :: rest =>
    match tryFrom2 (c :: rest) with
    | some g => some g
    | Option.none => fencedSearch2 rest

/-- `text.find("{")`: the suffix of the input starting at the first
opening brace, if any. -/
def dropToLBrace : List Char → Option (List Char)
  | [] => Option.none
  | c :: rest => if c = lbrace then some (c :: rest) else dropToLBrace rest

/-- Depth-counted brace matching of tab2's `_extract_json_block`
(increment on `{`, decrement on `}`, return the substring when the depth
returns to zero); `Option.none` when the scan ends with the brace open. -/
def braceScanGo : List Char → Nat → List Char → Option (List Char)
  | [], _, _ => Option.none
  | c :: rest, depth, acc =>
    if c = lbrace then braceScanGo rest (depth + 1) (acc ++ [c])
    else if c = rbrace then
      if depth = 1 then some (acc ++ [c])
      else braceScanGo rest (depth - 1) (acc ++ [c])
    else braceScanGo rest depth (acc ++ [c])

/-- `_extract_json_block` of tab2_plan.py (lines 39-57): empty input gives
`"{}"`; else the fenced `{...}` group if the regex matches; else the
depth-matched substring from the first `{`; else `"{}"`. -/
def extract_json_block2 (text : String) : String :=
  if text.isEmpty then "{}"
  else
    match fencedSearch2 text.data with
    | some g => String.mk (pyStrip g)
    | Option.none =>
      match dropToLBrace text.data with
      | Option.none => "{}"
      | some cs =>
        match braceScanGo cs 0 [] with
        | some sub => String.mk (pyStrip sub)
        | Option.none => "{}"

/-- The Streamlit session state: one field per session key the code
touches.  tab1 writes `draft_plan` and `final_plan`; tab2 reads
`confirmed_plan` and writes `design_plan_draft` / `design_plan_confirmed`.
`Option.none` models both an absent key and a key set to Python `None`
(all reads go through `st.session_state.get`). -/
structure SessionState where
  draft_plan : Option PyVal
  final_plan : Option PyVal
  confirmed_plan : Option PyVal
  design_plan_draft : Option PyVal
  design_plan_confirmed : Option PyVal

/-- A fresh session: no key set. -/
def initState : SessionState :=
  ⟨Option.none, Option.none, Option.none, Option.none, Option.none⟩

/-- Result of one button handler: the session state afterwards, whether an
exception escaped the handler (`raised`), whether `st.error` was shown
(`errorShown`), and the raw completion text exposed in a collapsible
debug view, if any (`debugRaw`). -/
structure ActionResult where
  state : SessionState
  raised : Bool
  errorShown : Bool
  debugRaw : Option String

/-- tab1's generate button (tab1_usecase.py lines 120-135).  The
completion-service call is NOT inside the `try` block: a transport error
propagates out of `render` uncaught (`raised = true`).  Only the JSON
parse is guarded: on parse failure, `st.error` is shown and the raw text
is exposed in the debug expander; on success the parsed value is stored
in `draft_plan`.  (`st.session_state.setdefault("draft_plan", None)` run
earlier in `render` is the identity in this model.) -/
def tab1Generate (svc : Except Unit String) (s : SessionState) : ActionResult :=
  match svc with
  | .error _ => ⟨s, true, false, Option.none⟩
  | .ok text =>
    match json_loads (extract_json_block1 text) with
    | some data => ⟨{ s with draft_plan := some data }, false, false, Option.none⟩
    | Option.none => ⟨s, false, true, some text⟩

/-- Is tab2's render past its guard?  (tab2_plan.py lines 147-150:
`plan = st.session_state.get("confirmed_plan"); if not plan: ...; return`.) -/
def tab2GuardPasses (s : SessionState) : Bool :=
  match s.confirmed_plan with
  | some v => v.truthy
  | Option.none => false

/-- The `get` of the confirmed-plan stage key performed by tab2's render
(tab2_plan.py line 147). -/
def tab2PlanGet (s : SessionState) : Option PyVal := s.confirmed_plan

/-- tab2's generate button (tab2_plan.py lines 158-171).  Unreachable when
the render guard fails.  Both the completion call and the parse are inside
`try`: a transport error is caught and reported via `st.error`; on a
reply, `_json_loads_safe` (lines 60-64) swallows parse failures and
returns the empty dict, which is stored in `design_plan_draft`. -/
def tab2Generate (svc : Except Unit String) (s : SessionState) : ActionResult :=
  if tab2GuardPasses s then
    match svc with
    | .error _ => ⟨s, false, true, Option.none⟩
    | .ok text =>
      let data := (json_loads (extract_json_block2 text)).getD (.dict [])
      ⟨{ s with design_plan_draft := some data }, false, false, Option.none⟩
  else ⟨s, false, false, Option.none⟩

/-- tab1's clear button (tab1_usecase.py lines 210-212):
`st.session_state["draft_plan"] = None`. -/
def tab1Clear (s : SessionState) : SessionState :=
  { s with draft_plan := Option.none }

/-- tab2's clear button (tab2_plan.py lines 179-183):
`st.session_state.pop("design_plan_draft", None)` and
`st.session_state.pop("design_plan_confirmed", None)`. -/
def tab2Clear (s : SessionState) : SessionState :=
  { s with design_plan_draft := Option.none, design_plan_confirmed := Option.none }

/-- tab2's confirm button (tab2_plan.py lines 174-176): reachable when the
draft is truthy; copies the draft into `design_plan_confirmed`. -/
def tab2Confirm (s : SessionState) : SessionState :=
  match s.design_plan_draft with
  | some d => if d.truthy then { s with design_plan_confirmed := some d } else s
  | Option.none => s

/-- The values tab1's render reads from the draft (tab1_usecase.py lines
143-149), shared by the display and the confirm branch:
`usecase_name`, `objective`, `actions`, `requirements`, then `bands`,
`res_target`, `rv_target` from the requirements.  `.get` on a non-dict
raises (`.error`). -/
def confirmFields (draft : PyVal) :
    Except Unit (PyVal × PyVal × PyVal × PyVal × PyVal × PyVal) := do
  let ucn := pyOr (← draft.getE "usecase_name") (.str "（名称未設定）")
  let obj := pyOr (← draft.getE "objective") (.str "")
  let acts := pyOr (← draft.getE "actions") (.list [])
  let req := pyOr (← draft.getE "requirements") (.dict [])
  let bandsV := pyOr (← req.getE "bands") (.list [])
  let resT ← req.getE "spatial_resolution_m_target"
  let rvT ← req.getE "revisit_days_target"
  return (ucn, obj, acts, bandsV, resT, rvT)

/-- Iterating `for b in bands` with `b.lower()` applied to each element:
a Python list yields its elements (which must be strings, or `.lower()`
raises), a string yields its characters as one-character strings, a dict
yields its keys, anything else truthy is not iterable here.  The falsy
cases have already been replaced by `[]` via `bands or []`. -/
def bandsToList (v : PyVal) : Except Unit (List String) :=
  match v with
  | .list xs => xs.mapM fun x =>
      match x with
      | .str s => .ok s
      | _ => .error ()
  | .str s => .ok (s.data.map fun c => String.mk [c])
  | .dict kvs => .ok (kvs.map Prod.fst)
  | .none => .ok []
  | _ => .error ()

/-- A catalog record as the Python dict stored inside the final plan
(`recommended_satellites` holds the record objects themselves). -/
def satToPy (r : SatRecord) : PyVal :=
  .dict [
    ("mission_name", .str r.mission_name),
    ("instrument_name", .str r.instrument_name),
    ("spectral_band", match r.spectral_band with | some s => .str s | Option.none => .none),
    ("spatial_resolution_m", match r.spatial_resolution_m with | some s => .str s | Option.none => .none),
    ("revisit", match r.revisit with | some s => .str s | Option.none => .none)]

/-- The FinalPlan dict built and stored by tab1's confirm button
(tab1_usecase.py lines 183-206): numeric fallbacks 30.0 / 5.0, satellite
search, top-3 `"mission / instrument"` labels, fixed supplemental note. -/
def buildFinalPlan (catalog : List SatRecord) (draft : PyVal) : Except Unit PyVal := do
  let (ucn, obj, _acts, bandsV, resT, rvT) ← confirmFields draft
  let res_f := pyFloatOr resT 30
  let rv_f := pyFloatOr rvT 5
  let bandsL ← bandsToList bandsV
  let recs := search_satellites catalog bandsL res_f rv_f
  let proposed := (recs.take 3).map fun r => r.mission_name ++ " / " ++ r.instrument_name
  return .dict [
    ("usecase_name", ucn),
    ("observation_objective", obj),
    ("observation_bands", bandsV),
    ("spatial_resolution_target_m", .num res_f),
    ("revisit_target_days", .num rv_f),
    ("recommended_satellites", .list (recs.map satToPy)),
    ("proposed_configuration", .list (proposed.map .str)),
    ("supplemental_note", .str "要求された空間分解能・観測頻度・バンド条件に近い衛星を候補抽出。無償データ（Sentinel/Landsat）を優先しつつ、要件が厳しければ有償のVHR/高頻度コンステを併用します。")]

/-- tab1's confirm (OK) button (tab1_usecase.py lines 183-207): reachable
only when the draft is truthy (`if not draft: return` at line 138); stores
the built plan under the session key `"final_plan"`. -/
def tab1Confirm (catalog : List SatRecord) (s : SessionState) : Except Unit SessionState :=
  match s.draft_plan with
  | some d =>
    if d.truthy then
      (buildFinalPlan catalog d).map fun fp => { s with final_plan := some fp }
    else .ok s
  | Option.none => .ok s

/-- The values tab2's `_prompt_messages` interpolates into the prompt
template (tab2_plan.py lines 67-75): `plan.get("usecase", "")`,
`plan.get("goal", "")`, and from `plan.get("requirements", {})` the keys
`actions` (default `[]`), `bands` (default `""`), `gsd_m` (default
`None`), `revisit_days` (default `None`). -/
def tab2PromptInputs (plan : PyVal) :
    Except Unit (PyVal × PyVal × PyVal × PyVal × PyVal × PyVal) := do
  let usecase ← plan.getDE "usecase" (.str "")
  let goal ← plan.getDE "goal" (.str "")
  let req ← plan.getDE "requirements" (.dict [])
  let acts ← req.getDE "actions" (.list [])
  let bands ← req.getDE "bands" (.str "")
  let gsd ← req.getDE "gsd_m" .none
  let rv ← req.getDE "revisit_days" .none
  return (usecase, goal, acts, bands, gsd, rv)

/-- Concrete catalog record for the band-mismatch witness: an optical
mission that should not match a required `"SAR"` band. -/
def satOptical : SatRecord :=
  ⟨"Sentinel-2", "MSI", some "Optical (VNIR)", some "10", some "5"⟩

/-- Concrete catalog record whose resolution text carries no digits, so
`parse_min_res` returns the 9999 sentinel. -/
def satUnparsed : SatRecord :=
  ⟨"MysterySat", "MYS", some "SAR", some "未公表", some "5"⟩

/-- Concrete catalog record with a very fine parseable resolution. -/
def satFineRes : SatRecord :=
  ⟨"FineSat", "FIN", some "SAR", some "1", some "5"⟩

/-- A session state whose `confirmed_plan` key holds a truthy plan, so
tab2's render passes its guard. -/
def statePlanned : SessionState :=
  { initState with confirmed_plan := some (.dict [("usecase_name", .str "干ばつ監視")]) }

/-- A stage-1 draft whose requirements carry no numeric targets. -/
def draftNoTargets : PyVal :=
  .dict [("requirements", .dict [("bands", .list [.str "SAR"])])]

/-- A well-formed stage-1 draft, as produced by a successful generation. -/
def draftConfirmed : PyVal :=
  .dict [
    ("usecase_name", .str "農業保険の損害査定"),
    ("objective", .str "干ばつ・冷害の被害評価"),
    ("actions", .list [.str "SARで洪水抽出"]),
    ("requirements", .dict [
      ("bands", .list [.str "SAR"]),
      ("spatial_resolution_m_target", .num 10),
      ("revisit_days_target", .num 5)])]

/-- A fresh session holding that draft. -/
def stateDrafted : SessionState := { initState with draft_plan := some draftConfirmed }

/-- The session state after tab1's confirm button on `stateDrafted`
(the confirm succeeds; the `.error` arm is never taken). -/
def stateConfirmed : SessionState :=
  match tab1Confirm [] stateDrafted with
  | .ok s => s
  | .error _ => initState
theorem mem_keyInsert {k : SatRecord → ℚ} {a x : SatRecord} {l : List SatRecord} :
    x ∈ keyInsert k a l ↔ x = a ∨ x ∈ l := by
  induction l with
  | nil => simp [keyInsert]
  | cons b bs ih =>
    by_cases h : k b ≤ k a
    · simp only [keyInsert, if_pos h, List.mem_cons, ih]
      tauto
    · simp only [keyInsert, if_neg h, List.mem_cons]

theorem pairwise_keyInsert {k : SatRecord → ℚ} {a : SatRecord} {l : List SatRecord}
    (h : l.Pairwise (fun x y => k x ≤ k y)) :
    (keyInsert k a l).Pairwise (fun x y => k x ≤ k y) := by
  induction l with
  | nil => simp [keyInsert]
  | cons b bs ih =>
    rcases List.pairwise_cons.mp h with ⟨hb, hbs⟩
    by_cases hba : k b ≤ k a
    · rw [keyInsert, if_pos hba]
      refine List.pairwise_cons.mpr ⟨?_, ih hbs⟩
      intro y hy
      rcases mem_keyInsert.mp hy with rfl | hy
      · exact hba
      · exact hb y hy
    · rw [keyInsert, if_neg hba]
      refine List.pairwise_cons.mpr ⟨?_, h⟩
      intro y hy
      rcases List.mem_cons.mp hy with rfl | hy
      · exact le_of_not_le hba
      · exact le_trans (le_of_not_le hba) (hb y hy)

theorem mem_sortByKey_aux {k : SatRecord → ℚ} {x : SatRecord} :
    ∀ (l acc : List SatRecord),
      (x ∈ l.foldl (fun acc a => keyInsert k a acc) acc ↔ x ∈ acc ∨ x ∈ l) := by
  intro l
  induction l with
  | nil => simp
  | cons a as ih =>
    intro acc
    rw [List.foldl_cons, ih]
    simp [mem_keyInsert]
    tauto

theorem mem_sortByKey {k : SatRecord → ℚ} {x : SatRecord} {l : List SatRecord} :
    x ∈ sortByKey k l ↔ x ∈ l := by
  rw [sortByKey, mem_sortByKey_aux]
  simp

theorem pairwise_sortByKey_aux {k : SatRecord → ℚ} :
    ∀ (l acc : List SatRecord), acc.Pairwise (fun x y => k x ≤ k y) →
      (l.foldl (fun acc a => keyInsert k a acc) acc).Pairwise (fun x y => k x ≤ k y) := by
  intro l
  induction l with
  | nil => intro acc h; simpa using h
  | cons a as ih =>
    intro acc h
    rw [List.foldl_cons]
    exact ih _ (pairwise_keyInsert h)

theorem pairwise_sortByKey {k : SatRecord → ℚ} {l : List SatRecord} :
    (sortByKey k l).Pairwise (fun x y => k x ≤ k y) :=
  pairwise_sortByKey_aux l [] (by simp)

theorem mem_search_passes {catalog : List SatRecord} {bands : List String}
    {rt rv : ℚ} {x : SatRecord} (h : x ∈ search_satellites catalog bands rt rv) :
    x ∈ catalog ∧ passes_filter bands rt rv x = true := by
  have hx : x ∈ sortByKey (score rt rv) (catalog.filter (passes_filter bands rt rv)) :=
    List.mem_of_mem_take h
  have := mem_sortByKey.mp hx
  exact ⟨List.mem_of_mem_filter this, List.of_mem_filter this⟩

theorem noFence_tryFrom1 {cs : List Char} (h : matchesFront "```".data cs = false) :
    tryFrom1 cs = Option.none := by
  simp [tryFrom1, h]

theorem noFence_fencedSearch1 {cs : List Char} (h : containsPat "```".data cs = false) :
    fencedSearch1 cs = Option.none := by
  induction cs with
  | nil => rfl
  | cons c rest ih =>
    rw [containsPat, Bool.or_eq_false_iff] at h
    rw [fencedSearch1, noFence_tryFrom1 h.1, ih h.2]

theorem noFence_tryFrom2 {cs : List Char} (h : matchesFront "```".data cs = false) :
    tryFrom2 cs = Option.none := by
  simp [tryFrom2, h]

theorem noFence_fencedSearch2 {cs : List Char} (h : containsPat "```".data cs = false) :
    fencedSearch2 cs = Option.none := by
  induction cs with
  | nil => rfl
  | cons c rest ih =>
    rw [containsPat, Bool.or_eq_false_iff] at h
    rw [fencedSearch2, noFence_tryFrom2 h.1, ih h.2]

theorem noLBrace_dropToLBrace {cs : List Char} (h : containsPat [lbrace] cs = false) :
    dropToLBrace cs = Option.none := by
  induction cs with
  | nil => rfl
  | cons c rest ih =>
    rw [containsPat, Bool.or_eq_false_iff] at h
    have hc : ¬ (c = lbrace) := by
      intro he
      simp [matchesFront, he] at h
    rw [dropToLBrace, if_neg hc]
    exact ih h.2

theorem exceptBindOk {A B : Type} (x : A) (f : A → Except Unit B) :
    (Except.ok x >>= f) = f x := rfl

theorem exceptPureEq {A : Type} (x : A) : (pure x : Except Unit A) = Except.ok x := rfl

/-- Claim C1 (code bug): after a stage-1 draft is confirmed, the confirmed
plan is stored under the session key `"final_plan"` (tab1_usecase.py line
197), but the stage-2 renderer reads the key `"confirmed_plan"`
(tab2_plan.py line 147), which is never written by any code path: its
`get` returns absent (not the stored FinalPlan), tab2's render stops at
its guard, and even applied to the stored plan the stage-2 prompt builder
would read only the keys `usecase` / `goal` / `requirements` (tab2_plan.py
lines 67-75), which the FinalPlan does not contain, so every interpolated
value is a default, none a field of the plan. -/
theorem c1_confirmed_plan_never_reaches_tab2 :
    tab1Confirm [] stateDrafted = .ok stateConfirmed
    ∧ stateConfirmed.final_plan.isSome = true
    ∧ tab2PlanGet stateConfirmed = Option.none
    ∧ tab2GuardPasses stateConfirmed = false
    ∧ (stateConfirmed.final_plan.getD .none).getE "usecase" = .ok .none
    ∧ (stateConfirmed.final_plan.getD .none).getE "goal" = .ok .none
    ∧ (stateConfirmed.final_plan.getD .none).getE "usecase_name"
        = .ok (.str "農業保険の損害査定")
    ∧ tab2PromptInputs (stateConfirmed.final_plan.getD .none)
        = .ok (.str "", .str "", .list [], .str "", .none, .none) :=
  ⟨rfl, rfl, rfl, rfl, rfl, rfl, rfl, rfl⟩

/-- Claim C2 (amended): a transport error from the completion-service call
is caught, reported via `st.error`, and leaves all plan state unchanged in
stage 2 (tab2_plan.py lines 158-171, `try`/`except` around the call); in
stage 1 the call is NOT inside the `try` block (tab1_usecase.py lines
120-135), so the error propagates uncaught out of the handler — the plan
state is still left unchanged, but no error message is shown by the tab's
own code. -/
theorem c2_transport_error_handling (s : SessionState) :
    (tab2Generate (.error ()) s).state = s
    ∧ (tab2Generate (.error ()) s).raised = false
    ∧ (tab2GuardPasses s = true → (tab2Generate (.error ()) s).errorShown = true)
    ∧ (tab1Generate (.error ()) s).state = s
    ∧ (tab1Generate (.error ()) s).raised = true
    ∧ (tab1Generate (.error ()) s).errorShown = false := by
  refine ⟨?_, ?_, ?_, rfl, rfl, rfl⟩
  · by_cases h : tab2GuardPasses s <;> simp [tab2Generate, h]
  · by_cases h : tab2GuardPasses s <;> simp [tab2Generate, h]
  · intro h
    simp [tab2Generate, h]

/-- Witness for claim C2's theorem at a concrete state whose confirmed
plan is truthy: the stage-2 error is reported and absorbed, the stage-1
error escapes. -/
theorem c2_transport_error_handling_witness :
    (tab2Generate (.error ()) statePlanned).errorShown = true
    ∧ (tab2Generate (.error ()) statePlanned).state = statePlanned
    ∧ (tab1Generate (.error ()) statePlanned).raised = true :=
  ⟨(c2_transport_error_handling statePlanned).2.2.1 rfl,
    (c2_transport_error_handling statePlanned).1,
    (c2_transport_error_handling statePlanned).2.2.2.2.1⟩

/-- Counterexample to claim C2 as stated: in stage 1, on a fresh session,
the transport error is NOT caught at the call site (the exception escapes
the handler) and no user-visible error message is produced. -/
theorem c2_stage1_uncaught_counterexample :
    (tab1Generate (.error ()) initState).raised = true
    ∧ (tab1Generate (.error ()) initState).errorShown = false :=
  ⟨rfl, rfl⟩

/-- Claim C3 (amended): in stage 1 a reply whose extracted text is not
valid JSON is rejected — the draft state is unchanged, `st.error` is
shown, and the raw completion text is surfaced in the debug expander —
while a successfully parsed reply is committed as-is (no schema check);
in stage 2 (`_json_loads_safe`, tab2_plan.py lines 60-64 and 168-169) a
reply whose extracted text is not valid JSON commits the EMPTY dict to
`design_plan_draft` (an empty object, treated as absent by every reader
since `{}` is falsy) and the raw text is not surfaced. -/
theorem c3_extraction_failure_handling (s : SessionState) (text : String) :
    (json_loads (extract_json_block1 text) = Option.none →
      tab1Generate (.ok text) s = ⟨s, false, true, some text⟩)
    ∧ (∀ v, json_loads (extract_json_block1 text) = some v →
      tab1Generate (.ok text) s
        = ⟨{ s with draft_plan := some v }, false, false, Option.none⟩)
    ∧ (tab2GuardPasses s = true → json_loads (extract_json_block2 text) = Option.none →
      tab2Generate (.ok text) s
        = ⟨{ s with design_plan_draft := some (.dict []) }, false, false, Option.none⟩) := by
  refine ⟨?_, ?_, ?_⟩
  · intro h
    simp [tab1Generate, h]
  · intro v h
    simp [tab1Generate, h]
  · intro hg h
    simp [tab2Generate, hg, h]

/-- Witness for claim C3's theorem at concrete malformed replies:
`"{ oops }"` extracts to itself but is not valid JSON (stage 2 commits the
empty dict); `"oops"` fails stage 1's strict parse (state unchanged, raw
text surfaced). -/
theorem c3_extraction_failure_handling_witness :
    tab2Generate (.ok "\x7b oops \x7d") statePlanned
      = ⟨{ statePlanned with design_plan_draft := some (.dict []) }, false, false, Option.none⟩
    ∧ tab1Generate (.ok "oops") statePlanned
      = ⟨statePlanned, false, true, some "oops"⟩ :=
  ⟨(c3_extraction_failure_handling statePlanned "\x7b oops \x7d").2.2 rfl rfl,
    (c3_extraction_failure_handling statePlanned "oops").1 rfl⟩

/-- Counterexample to claim C3 as stated: the reply `"{ oops }"` extracts
to invalid JSON, yet stage 2 commits the empty object to its plan state
(neither absent nor a fully-formed structure) and does not surface the
offending raw text. -/
theorem c3_empty_dict_committed_counterexample :
    json_loads (extract_json_block2 "\x7b oops \x7d") = Option.none
    ∧ (tab2Generate (.ok "\x7b oops \x7d") statePlanned).state.design_plan_draft
        = some (.dict [])
    ∧ (tab2Generate (.ok "\x7b oops \x7d") statePlanned).debugRaw = Option.none :=
  ⟨rfl, rfl, rfl⟩

/-- Claim C4: for every catalog, band list and targets, the satellite
search returns at most 5 records; every returned record passes the filter
(each requested band is a case-insensitive substring of the record's
spectral-band text — vacuously true for an empty band list — and the
parsed resolution and revisit are within 1.5× of their targets); the
output is non-decreasing in L1 distance to the targets; and the output is
empty when a non-empty band list matches no record. -/
theorem c4_search_satellites_spec (catalog : List SatRecord) (bands : List String) (rt rv : ℚ) :
    (search_satellites catalog bands rt rv).length ≤ 5
    ∧ (∀ r ∈ search_satellites catalog bands rt rv,
        band_ok bands r = true
        ∧ parse_min_res r.spatial_resolution_m ≤ rt * (3/2)
        ∧ parse_revisit_days r.revisit ≤ rv * (3/2))
    ∧ (search_satellites catalog bands rt rv).Pairwise
        (fun a b => score rt rv a ≤ score rt rv b)
    ∧ (bands ≠ [] → (∀ r ∈ catalog, band_ok bands r = false) →
        search_satellites catalog bands rt rv = []) := by
  refine ⟨?_, ?_, ?_, ?_⟩
  · rw [search_satellites, List.length_take]
    exact min_le_left _ _
  · intro r hr
    have hp := (mem_search_passes hr).2
    rw [passes_filter, Bool.and_eq_true, Bool.and_eq_true] at hp
    exact ⟨hp.1.1, of_decide_eq_true hp.1.2, of_decide_eq_true hp.2⟩
  · exact List.Pairwise.sublist (List.take_sublist _ _) pairwise_sortByKey
  · intro _ hall
    have hfil : catalog.filter (passes_filter bands rt rv) = [] := by
      rw [List.filter_eq_nil_iff]
      intro a ha hp
      rw [passes_filter, Bool.and_eq_true, Bool.and_eq_true] at hp
      rw [hall a ha] at hp
      exact Bool.false_ne_true hp.1.1
    rw [search_satellites, hfil]
    rfl

/-- Witness for claim C4's theorem: a required `"SAR"` band matched
against a one-record optical catalog yields the empty result. -/
theorem c4_search_satellites_spec_witness :
    search_satellites [satOptical] ["SAR"] 10 5 = [] :=
  (c4_search_satellites_spec [satOptical] ["SAR"] 10 5).2.2.2 (by decide)
    (by
      intro r hr
      rw [List.mem_singleton] at hr
      subst hr
      rfl)

/-- Claim C5: `_parse_revisit_days` on `"6–12 日"` gives the mean 9, on
`"< 1 日"` gives 1, and the 9999 sentinel on the empty string and on
absent (`None`) input; being a total function of the model, it never
raises. -/
theorem c5_parse_revisit_days_examples :
    parse_revisit_days (some "6–12 日") = 9
    ∧ parse_revisit_days (some "< 1 日") = 1
    ∧ parse_revisit_days (some "") = 9999
    ∧ parse_revisit_days Option.none = 9999 := by
  refine ⟨?_, ?_, rfl, rfl⟩
  · show (if ([mkRat 6 1, mkRat 12 1] : List ℚ).isEmpty then (9999 : ℚ)
      else ([mkRat 6 1, mkRat 12 1] : List ℚ).foldl (· + ·) 0
        / (([mkRat 6 1, mkRat 12 1] : List ℚ).length : ℚ)) = 9
    norm_num [Rat.mkRat_eq_div]
  · show (if ([mkRat 1 1] : List ℚ).isEmpty then (9999 : ℚ)
      else ([mkRat 1 1] : List ℚ).foldl (· + ·) 0
        / (([mkRat 1 1] : List ℚ).length : ℚ)) = 1
    norm_num [Rat.mkRat_eq_div]

/-- Claim C6: `_parse_min_res` on `"0.31/1.24/3.7"` gives the first number
0.31, on `"約 3"` gives 3, and the 9999 sentinel on the empty string and
on absent (`None`) input; being a total function of the model, it never
raises. -/
theorem c6_parse_min_res_examples :
    parse_min_res (some "0.31/1.24/3.7") = 0.31
    ∧ parse_min_res (some "約 3") = 3
    ∧ parse_min_res (some "") = 9999
    ∧ parse_min_res Option.none = 9999 := by
  refine ⟨?_, ?_, rfl, rfl⟩
  · show (mkRat 31 100 : ℚ) = 0.31
    norm_num [Rat.mkRat_eq_div]
  · show (mkRat 3 1 : ℚ) = 3
    norm_num [Rat.mkRat_eq_div]

/-- Claim C7 (amended): on input containing neither a code fence nor any
opening brace, tab2's extractor returns `"{}"`, while tab1's extractor
(per its own documented fallback) returns the trimmed input text instead;
both are total functions of the model, so neither raises. -/
theorem c7_extract_no_fence_no_brace (text : String)
    (h1 : containsPat "```".data text.data = false)
    (h2 : containsPat [lbrace] text.data = false) :
    extract_json_block2 text = "\x7b\x7d"
    ∧ extract_json_block1 text = String.mk (pyStrip text.data) := by
  constructor
  · rw [extract_json_block2]
    by_cases he : text.isEmpty
    · rw [if_pos he]
    · rw [if_neg he, noFence_fencedSearch2 h1, noLBrace_dropToLBrace h2]
  · rw [extract_json_block1, noFence_fencedSearch1 h1]

/-- Witness for claim C7's theorem at the input `"no braces here"`. -/
theorem c7_extract_no_fence_no_brace_witness :
    extract_json_block2 "no braces here" = "\x7b\x7d"
    ∧ extract_json_block1 "no braces here" = "no braces here" := by
  have h := c7_extract_no_fence_no_brace "no braces here" (by decide) (by decide)
  exact ⟨h.1, h.2.trans (by decide)⟩

/-- Counterexample to claim C7 as stated: tab1's extractor returns the
whole input `"no braces here"`, not `"{}"`. -/
theorem c7_tab1_returns_text_counterexample :
    extract_json_block1 "no braces here" = "no braces here"
    ∧ ("no braces here" : String) ≠ "\x7b\x7d" :=
  ⟨rfl, by decide⟩

/-- Claim C8 (amended): a record whose resolution (resp. revisit) parses
to the 9999 sentinel fails the 1.5×-tolerance filter and is excluded from
the search output whenever 1.5× the corresponding target is below 9999;
for larger targets such a record can survive, and need not rank last. -/
theorem c8_sentinel_excluded (catalog : List SatRecord) (bands : List String) (rt rv : ℚ)
    (sat : SatRecord) :
    (parse_min_res sat.spatial_resolution_m = 9999 → rt * (3/2) < 9999 →
      sat ∉ search_satellites catalog bands rt rv)
    ∧ (parse_revisit_days sat.revisit = 9999 → rv * (3/2) < 9999 →
      sat ∉ search_satellites catalog bands rt rv) := by
  constructor
  · intro hp ht hmem
    have h := (mem_search_passes hmem).2
    rw [passes_filter, Bool.and_eq_true, Bool.and_eq_true] at h
    have := of_decide_eq_true h.1.2
    rw [hp] at this
    exact absurd this (not_le_of_lt ht)
  · intro hp ht hmem
    have h := (mem_search_passes hmem).2
    rw [passes_filter, Bool.and_eq_true, Bool.and_eq_true] at h
    have := of_decide_eq_true h.2
    rw [hp] at this
    exact absurd this (not_le_of_lt ht)

/-- Witness for claim C8's theorem: the record with unparseable resolution
is excluded from the output for a target of 10 m. -/
theorem c8_sentinel_excluded_witness :
    satUnparsed ∉ search_satellites [satUnparsed] [] 10 5 :=
  (c8_sentinel_excluded [satUnparsed] [] 10 5 satUnparsed).1 rfl (by norm_num)

/-- Counterexample to claim C8 as stated: with target resolution 6700
(so 1.5× target exceeds 9999), the record with unparseable resolution
survives the filter and ranks FIRST, ahead of a surviving record whose
numeric fields both parse. -/
theorem c8_sentinel_ranks_first_counterexample :
    search_satellites [satUnparsed, satFineRes] [] 6700 5 = [satUnparsed, satFineRes]
    ∧ parse_min_res satUnparsed.spatial_resolution_m = 9999
    ∧ parse_min_res satFineRes.spatial_resolution_m ≠ 9999
    ∧ parse_revisit_days satFineRes.revisit ≠ 9999 := by
  have hrv : parse_revisit_days (some "5") = 5 := by
    show ((0 : ℚ) + mkRat 5 1) / ((1 : ℕ) : ℚ) = 5
    norm_num [Rat.mkRat_eq_div]
  have hA : passes_filter [] 6700 5 satUnparsed = true := by
    show (true && decide (parse_min_res satUnparsed.spatial_resolution_m ≤ 6700 * (3/2))
      && decide (parse_revisit_days satUnparsed.revisit ≤ 5 * (3/2))) = true
    rw [decide_eq_true (show parse_min_res satUnparsed.spatial_resolution_m ≤ 6700 * (3/2) by
        show (9999 : ℚ) ≤ 6700 * (3/2); norm_num),
      decide_eq_true (show parse_revisit_days satUnparsed.revisit ≤ 5 * (3/2) by
        rw [show satUnparsed.revisit = some "5" from rfl, hrv]; norm_num)]
    rfl
  have hB : passes_filter [] 6700 5 satFineRes = true := by
    show (true && decide (parse_min_res satFineRes.spatial_resolution_m ≤ 6700 * (3/2))
      && decide (parse_revisit_days satFineRes.revisit ≤ 5 * (3/2))) = true
    rw [decide_eq_true (show parse_min_res satFineRes.spatial_resolution_m ≤ 6700 * (3/2) by
        show (mkRat 1 1 : ℚ) ≤ 6700 * (3/2); norm_num [Rat.mkRat_eq_div]),
      decide_eq_true (show parse_revisit_days satFineRes.revisit ≤ 5 * (3/2) by
        rw [show satFineRes.revisit = some "5" from rfl, hrv]; norm_num)]
    rfl
  have hfil : List.filter (passes_filter [] 6700 5) [satUnparsed, satFineRes]
      = [satUnparsed, satFineRes] := by
    simp [List.filter, hA, hB]
  have hscore : score 6700 5 satUnparsed ≤ score 6700 5 satFineRes := by
    rw [score, score, show satUnparsed.revisit = some "5" from rfl,
      show satFineRes.revisit = some "5" from rfl, hrv,
      show parse_min_res satUnparsed.spatial_resolution_m = (9999 : ℚ) from rfl,
      show parse_min_res satFineRes.spatial_resolution_m = mkRat 1 1 from rfl]
    norm_num [Rat.mkRat_eq_div]
  have hsort : sortByKey (score 6700 5) [satUnparsed, satFineRes]
      = [satUnparsed, satFineRes] := by
    show keyInsert (score 6700 5) satFineRes (keyInsert (score 6700 5) satUnparsed [])
      = [satUnparsed, satFineRes]
    rw [show keyInsert (score 6700 5) satUnparsed [] = [satUnparsed] from rfl,
      keyInsert, if_pos hscore]
    rfl
  refine ⟨?_, rfl, ?_, ?_⟩
  · rw [search_satellites, hfil, hsort]
    rfl
  · show (mkRat 1 1 : ℚ) ≠ 9999
    norm_num [Rat.mkRat_eq_div]
  · rw [show satFineRes.revisit = some "5" from rfl, hrv]
    norm_num

/-- Claim C9: tab1's clear sets the use-case draft to absent and changes
no other stage's value; tab2's clear sets both configuration values
(draft and confirmed) to absent and changes no stage-1 value. -/
theorem c9_clear_frame (s : SessionState) :
    (tab1Clear s).draft_plan = Option.none
    ∧ (tab1Clear s).final_plan = s.final_plan
    ∧ (tab1Clear s).confirmed_plan = s.confirmed_plan
    ∧ (tab1Clear s).design_plan_draft = s.design_plan_draft
    ∧ (tab1Clear s).design_plan_confirmed = s.design_plan_confirmed
    ∧ (tab2Clear s).design_plan_draft = Option.none
    ∧ (tab2Clear s).design_plan_confirmed = Option.none
    ∧ (tab2Clear s).draft_plan = s.draft_plan
    ∧ (tab2Clear s).final_plan = s.final_plan
    ∧ (tab2Clear s).confirmed_plan = s.confirmed_plan :=
  ⟨rfl, rfl, rfl, rfl, rfl, rfl, rfl, rfl, rfl, rfl⟩

/-- Claim C10: when the draft's numeric targets are absent or not numbers
(`isNumLike = false`, mirroring `isinstance(x, (int, float))`), the
confirmed FinalPlan records the defaults 30.0 and 5.0, and building the
plan succeeds (missing numeric targets never make confirmation fail). -/
theorem c10_numeric_fallback (catalog : List SatRecord) (draft : PyVal)
    (ucn obj acts bandsV resT rvT : PyVal) (bandsL : List String)
    (hf : confirmFields draft = .ok (ucn, obj, acts, bandsV, resT, rvT))
    (hb : bandsToList bandsV = .ok bandsL) :
    ∃ fp, buildFinalPlan catalog draft = .ok fp
      ∧ (resT.isNumLike = false → fp.getE "spatial_resolution_target_m" = .ok (.num 30))
      ∧ (rvT.isNumLike = false → fp.getE "revisit_target_days" = .ok (.num 5)) := by
  simp only [buildFinalPlan, hf, hb, exceptBindOk, exceptPureEq]
  refine ⟨_, rfl, ?_, ?_⟩
  · intro h
    have hv : pyFloatOr resT 30 = 30 := by
      cases resT <;> simp_all [pyFloatOr, PyVal.isNumLike]
    simp [PyVal.getE, lookupLast, hv]
  · intro h
    have hv : pyFloatOr rvT 5 = 5 := by
      cases rvT <;> simp_all [pyFloatOr, PyVal.isNumLike]
    simp [PyVal.getE, lookupLast, hv]

/-- Witness for claim C10's theorem at a concrete draft with no numeric
targets: the built plan carries the defaults 30 and 5. -/
theorem c10_numeric_fallback_witness :
    ∃ fp, buildFinalPlan [] draftNoTargets = .ok fp
      ∧ fp.getE "spatial_resolution_target_m" = .ok (.num 30)
      ∧ fp.getE "revisit_target_days" = .ok (.num 5) := by
  obtain ⟨fp, h1, h2, h3⟩ := c10_numeric_fallback [] draftNoTargets
    (.str "（名称未設定）") (.str "") (.list []) (.list [.str "SAR"]) .none .none
    ["SAR"] rfl rfl
  exact ⟨fp, h1, h2 rfl, h3 rfl⟩
